import Mathlib

/-
Verification of the Numerix iterative-solver repository.

Embedding conventions:
- Python floats are modelled as rationals (ℚ), i.e. the exact-arithmetic
  semantics of the source algorithms; the dtype casts np.float32/np.float64
  are value-preserving in this model (an int cast becomes a float value).
- Python dictionaries used as log records are modelled as ordered
  association lists (List (String × PyVal)), matching insertion order of
  dict keys.
- Exceptions are modelled with Except / Option error values; the error
  constructors name the Python exception classes raised by the source.
- Bounded `for i in range(...)` loops are modelled with a fuel argument
  that counts the remaining iterations.

Two independent class families exist in the repository and are embedded
separately:
- the `src/src/numerix` package: class Numerix (add_logs) with Bisection
  and RegulaFalsi;
- the flat `numerix.py` / `nonlinear` family: class Numerix
  (append_process_log) with NonLinearSystem and NewtonRaph.
-/

/-- A Python value stored in a log record: an int, a float, or a numpy
vector (1-d array of floats). -/
inductive PyVal where
  | int : Int → PyVal
  | float : ℚ → PyVal
  | arr : List ℚ → PyVal
deriving DecidableEq, Repr

/-- Python exception classes raised by the embedded code. -/
inductive PyErr where
  | attributeError : PyErr
  | typeError : PyErr
  | valueError : PyErr
  | runtimeError : PyErr
  | indexError : PyErr
deriving DecidableEq, Repr

/-- A log record: an ordered association list, modelling a Python dict in
key-insertion order. -/
abbrev LogRec := List (String × PyVal)

/-- The dtype cast `self._dtype(v)` of numerix.py line 49, applied to an
int or float value: in exact arithmetic both np.float32 and np.float64
embed the value into ℚ, so an int becomes the float of the same value and
a float is unchanged.  Arrays are not ints or floats, hence untouched
(the isinstance check of line 48 fails for them). -/
def convVal : PyVal → PyVal
  | .int n => .float (n : ℚ)
  | .float q => .float q
  | .arr v => .arr v

/-- One key-value pair of the loop `for k, v in log.items(): if
isinstance(v, (int, float)): log[k] = self._dtype(v)` (numerix.py
lines 47-49). -/
def convEntry (kv : String × PyVal) : String × PyVal :=
  (kv.1, convVal kv.2)

/-- Method `Numerix.append_process_log` of numerix.py (lines 44-52, flat family).
The state is the list of rows of `self._process_log`.  The method first
mutates the passed dict in place (dtype-casting every int/float value),
then concatenates the mutated dict as a new row.  It returns the new
process-log state together with the record object as the caller observes
it after the call.  No schema check of any kind is performed. -/
def append_process_log (plog : List LogRec) (log : LogRec) :
    List LogRec × LogRec :=
  let log' := log.map convEntry
  (plog ++ [log'], log')

/-- The mutable state of the `src/src/numerix` Numerix base class:
`is_verbose`, `is_logging`, `_log_columns` and the rows of `self.logs`. -/
structure LogState where
  is_verbose : Bool
  is_logging : Bool
  log_columns : List String
  logs : List LogRec
deriving DecidableEq, Repr

/-- Method `Numerix.add_logs` of src/src/numerix/Numerix.py (lines 112-127).
Returns `(some e, st)` when the Python method raises exception `e`
(leaving the state as it was at the raise point) and `(none, st')` when
it returns normally with new state `st'`.  Faithful to statement order:
the RuntimeError (logging disabled) and the ValueError (key mismatch) are
both raised before the row write `self.logs.loc[len(self.logs)] = log`;
on the first schema-fixing call, `self.logs` is reset to an empty frame
with the new columns before the row is written. -/
def add_logs (st : LogState) (log : LogRec) : Option PyErr × LogState :=
  if st.is_logging = false then
    (some .runtimeError, st)
  else if st.log_columns = [] then
    let st1 : LogState :=
      { st with log_columns := log.map Prod.fst, logs := [] }
    (none, { st1 with logs := st1.logs ++ [log] })
  else if log.map Prod.fst ≠ st.log_columns then
    (some .valueError, st)
  else
    (none, { st with logs := st.logs ++ [log] })

/-- A Python object passed where a function is expected: whether
`callable(f)` holds, whether the attribute access `f.__code__` succeeds,
and `f.__code__.co_argcount` when it does. -/
structure PyFunc where
  callable : Bool
  hasCode : Bool
  coArgcount : Nat
deriving DecidableEq, Repr

/-- Method `Bisection.set_function` (src/src/numerix/roots/Bisection.py lines
23-30): reads `function.__code__.co_argcount` with no callable check
(AttributeError when the object has no `__code__`), then raises
ValueError unless the arity is exactly 1. -/
def bisection_set_function (f : PyFunc) : Except PyErr Nat :=
  if f.hasCode = false then .error .attributeError
  else if f.coArgcount ≠ 1 then .error .valueError
  else .ok f.coArgcount

/-- Method `RegulaFalsi.set_function` (src/src/numerix/roots/RegulaFalsi.py
lines 24-34): first checks `callable(function)` (TypeError), then reads
`function.__code__.co_argcount` (AttributeError when missing), then the
arity check (ValueError). -/
def regulaFalsi_set_function (f : PyFunc) : Except PyErr Nat :=
  if f.callable = false then .error .typeError
  else if f.hasCode = false then .error .attributeError
  else if f.coArgcount ≠ 1 then .error .valueError
  else .ok f.coArgcount

/-- Method `set_bounds` shared by Bisection and RegulaFalsi: ValueError unless
lower < upper. -/
def set_bounds_check (lo hi : ℚ) : Except PyErr (ℚ × ℚ) :=
  if lo ≥ hi then .error .valueError else .ok (lo, hi)

/-- The validation performed by the `Bisection.__init__` call chain:
`set_function` then `set_bounds`. -/
def bisectionInitCheck (f : PyFunc) (lo hi : ℚ) :
    Except PyErr (Nat × ℚ × ℚ) :=
  match bisection_set_function f with
  | .error e => .error e
  | .ok n =>
    match set_bounds_check lo hi with
    | .error e => .error e
    | .ok p => .ok (n, p)

/-- The validation performed by the `RegulaFalsi.__init__` call chain:
`set_function` then `set_bounds`. -/
def regulaFalsiInitCheck (f : PyFunc) (lo hi : ℚ) :
    Except PyErr (Nat × ℚ × ℚ) :=
  match regulaFalsi_set_function f with
  | .error e => .error e
  | .ok n =>
    match set_bounds_check lo hi with
    | .error e => .error e
    | .ok p => .ok (n, p)

/-- Method `NewtonRaph.set_derivatives` (src/nonlinear/newtonraph.py lines
12-19): given a list, it only checks that every cell of every row is
callable (TypeError otherwise); it performs no shape validation at all,
and records `self._jacobian_shape = (len(derivatives),
len(derivatives[0]))` — the latter raising IndexError when the list is
empty. -/
def set_derivatives (derivs : List (List PyFunc)) : Except PyErr (Nat × Nat) :=
  if (derivs.all fun row => row.all fun d => d.callable) = false then
    .error .typeError
  else
    match derivs with
    | [] => .error .indexError
    | r :: _ => .ok (derivs.length, r.length)

/-- The validation performed by the `NewtonRaph.__init__` call chain:
`NonLinearSystem.set_base_equation` (every equation callable, TypeError
otherwise), `set_initial_guess` (guess must be 1-dimensional, ValueError
otherwise; `guessNdim` is the ndim of the passed array), then
`set_derivatives`. -/
def newtonRaphInitCheck (eqns : List PyFunc) (derivs : List (List PyFunc))
    (guessNdim : Nat) : Except PyErr (Nat × Nat) :=
  if (eqns.all fun e => e.callable) = false then .error .typeError
  else if guessNdim ≠ 1 then .error .valueError
  else set_derivatives derivs

/-- Delete row i and column j of a matrix given as a list of rows. -/
def deleteRowCol (m : List (List ℚ)) (i j : Nat) : List (List ℚ) :=
  (m.eraseIdx i).map (fun row => row.eraseIdx j)

/-- Laplace expansion along the first row, structurally recursive on the
row count (the first argument is always the number of rows of the second,
so the base case for exhausted fuel is never reached on square input). -/
def detAux : Nat → List (List ℚ) → ℚ
  | _, [] => 1
  | 0, _ :: _ => 1
  | n + 1, r :: rest =>
      ((List.range r.length).map fun j =>
        (-1 : ℚ) ^ j * r.getD j 0 * detAux n (rest.map fun row => row.eraseIdx j)).sum

/-- Exact determinant of a square matrix, Laplace expansion along the
first row.  Models `np.linalg.det` in exact arithmetic (the empty matrix
has determinant 1). -/
def detQ (m : List (List ℚ)) : ℚ :=
  detAux m.length m

/-- Exact matrix inverse by the adjugate formula: entry (i, j) is
(-1)^(i+j) · det(minor j i) / det.  Models `np.linalg.inv` (the explicit
matrix inversion of newtonraph.py line 40) in exact arithmetic. -/
def invQ (m : List (List ℚ)) : List (List ℚ) :=
  let d := detQ m
  (List.range m.length).map fun i =>
    (List.range m.length).map fun j =>
      (-1 : ℚ) ^ (i + j) * detQ (deleteRowCol m j i) / d

/-- Matrix–vector product, modelling `inv_J @ Fx`. -/
def matVecQ (m : List (List ℚ)) (v : List ℚ) : List ℚ :=
  m.map fun row => ((row.zip v).map fun p => p.1 * p.2).sum

/-- Elementwise vector difference, modelling `prev_args - delta`. -/
def listSubQ (u v : List ℚ) : List ℚ :=
  List.zipWith (fun x y => x - y) u v

/-- The squared Euclidean norm.  The source compares
`np.linalg.norm(delta) < tol`; over ℚ the square root does not exist, so
the embedding carries the square and compares it with tol², which is
equivalent for the positive tolerances the solver is run with. -/
def normSqQ (v : List ℚ) : ℚ :=
  (v.map fun x => x * x).sum

/-- Method `NewtonRaph.evaluate_jacobian` (newtonraph.py lines 21-25): the
matrix whose (i, j) entry is derivatives[i][j] applied to the argument
vector. -/
def evaluate_jacobian (derivs : List (List (List ℚ → ℚ))) (args : List ℚ) :
    List (List ℚ) :=
  derivs.map fun row => row.map fun d => d args

/-- The error raised mid-solve by NewtonRaph:
`np.linalg.LinAlgError("Jacobian is singular at iteration {i+1}.")`,
carrying the 1-based iteration number. -/
inductive NRErr where
  | singular : Nat → NRErr
deriving DecidableEq, Repr

/-- The record logged by `NewtonRaph.solve` (newtonraph.py lines 44-51).
The 2-norm field carries the squared norm (see `normSqQ`). -/
def nrRecord (i : Nat) (prev Fx delta newArgs : List ℚ) : LogRec :=
  [("Iteration", .int (i : Int)), ("Args", .arr prev), ("F(x)", .arr Fx),
   ("Δx", .arr delta), ("‖Δx‖₂", .float (normSqQ delta)),
   ("New Args", .arr newArgs)]

/-- The `for i in range(max_iter)` loop of `NewtonRaph.solve`
(newtonraph.py lines 33-62).  `fuel` is the number of remaining
iterations and `i` the number already performed.  The result is
((outcome, process-log rows), number of global `dtype()` reads made by
the loop): each executed iteration reads `dtype()` twice — once building
the residual array `Fx` (line 34) and once inside `evaluate_jacobian`
(line 25).  On budget exhaustion the last estimate and the accumulated
log are returned with no exception (lines 60-62); a zero determinant
raises LinAlgError before anything is logged (lines 37-38); otherwise
the step is logged through `append_process_log` and the loop converges
when the step norm is below tol (lines 53-56). -/
def newtonLoop (eqns : List (List ℚ → ℚ)) (derivs : List (List (List ℚ → ℚ)))
    (tol : ℚ) :
    Nat → Nat → List ℚ → List LogRec →
      (Except NRErr (List ℚ) × List LogRec) × Nat
  | 0, _, prev, log => ((.ok prev, log), 0)
  | fuel + 1, i, prev, log =>
      let Fx := eqns.map fun f => f prev
      let Jx := evaluate_jacobian derivs prev
      if detQ Jx = 0 then ((.error (.singular (i + 1)), log), 2)
      else
        let delta := matVecQ (invQ Jx) Fx
        let newArgs := listSubQ prev delta
        let log2 := (append_process_log log (nrRecord (i + 1) prev Fx delta newArgs)).1
        if normSqQ delta < tol ^ 2 then ((.ok newArgs, log2), 2)
        else
          let r := newtonLoop eqns derivs tol fuel (i + 1) newArgs log2
          (r.1, r.2 + 2)

/-- Method `NewtonRaph.solve` (newtonraph.py lines 27-62): casts the initial
guess with the live global `dtype()` (line 31, one additional read), then
runs the iteration loop on an initially empty process log. -/
def newtonSolve (eqns : List (List ℚ → ℚ)) (derivs : List (List (List ℚ → ℚ)))
    (guess : List ℚ) (maxIter : Nat) (tol : ℚ) :
    (Except NRErr (List ℚ) × List LogRec) × Nat :=
  let r := newtonLoop eqns derivs tol maxIter 0 guess []
  (r.1, r.2 + 1)

/-- The bracket-and-sign update of Bisection.py lines 65-68: given the
carried endpoint values fa, fb and the midpoint value fc, produce the
next ((a, b), (fa, fb)): keep [a, c] when fa·fc < 0, else keep [c, b]. -/
def bisectUpdate (fa fb fc a b c : ℚ) : (ℚ × ℚ) × (ℚ × ℚ) :=
  if fa * fc < 0 then ((a, c), (fa, fc)) else ((c, b), (fc, fb))

/-- The record logged by `Bisection.start` (Bisection.py lines 52-60). -/
def bisectRecord (i : Nat) (a b c fc : ℚ) : LogRec :=
  [("iter", .int (i : Int)), ("lower", .float a), ("upper", .float b),
   ("mid", .float c), ("f(mid)", .float fc)]

/-- The `for i in range(1, max_iter + 1)` loop of `Bisection.start`
(Bisection.py lines 47-70): midpoint c = (a+b)/2, optional logging via
`add_logs` (whose exceptions propagate), return c when |f(c)| < tol or
|b−a|/2 < tol, else the `bisectUpdate` bracket update; RuntimeError
("did not converge") when the budget is exhausted. -/
def bisectionLoop (f : ℚ → ℚ) (tol : ℚ) :
    Nat → Nat → ℚ → ℚ → ℚ → ℚ → LogState → Except PyErr ℚ × LogState
  | 0, _, _, _, _, _, st => (.error .runtimeError, st)
  | fuel + 1, i, a, b, fa, fb, st =>
      let c := (a + b) / 2
      let fc := f c
      match (if st.is_logging then add_logs st (bisectRecord i a b c fc)
             else (none, st)) with
      | (some e, st2) => (.error e, st2)
      | (none, st2) =>
          if |fc| < tol ∨ |b - a| / 2 < tol then (.ok c, st2)
          else
            let u := bisectUpdate fa fb fc a b c
            bisectionLoop f tol fuel (i + 1) u.1.1 u.1.2 u.2.1 u.2.2 st2

/-- Method `Bisection.start` (Bisection.py lines 39-70): evaluates f at the
stored bounds, raises ValueError unless the signs differ strictly, then
runs the iteration loop. -/
def bisectionStart (f : ℚ → ℚ) (lower upper tol : ℚ) (maxIter : Nat)
    (st : LogState) : Except PyErr ℚ × LogState :=
  let fa := f lower
  let fb := f upper
  if fa * fb ≥ 0 then (.error .valueError, st)
  else bisectionLoop f tol maxIter 1 lower upper fa fb st

/-- The record logged by `RegulaFalsi.start` (RegulaFalsi.py lines
58-67). -/
def regulaRecord (i : Nat) (a b c fc : ℚ) : LogRec :=
  [("iter", .int (i : Int)), ("lower", .float a), ("upper", .float b),
   ("c", .float c), ("f(c)", .float fc)]

/-- The `for i in range(1, max_iter + 1)` loop of `RegulaFalsi.start`
(RegulaFalsi.py lines 53-77): secant point c = b − fb·(b−a)/(fb−fa),
optional logging, return c when |f(c)| < tol only (no width test), same
endpoint-replacement rule as bisection; RuntimeError on exhaustion. -/
def regulaFalsiLoop (f : ℚ → ℚ) (tol : ℚ) :
    Nat → Nat → ℚ → ℚ → ℚ → ℚ → LogState → Except PyErr ℚ × LogState
  | 0, _, _, _, _, _, st => (.error .runtimeError, st)
  | fuel + 1, i, a, b, fa, fb, st =>
      let c := b - fb * (b - a) / (fb - fa)
      let fc := f c
      match (if st.is_logging then add_logs st (regulaRecord i a b c fc)
             else (none, st)) with
      | (some e, st2) => (.error e, st2)
      | (none, st2) =>
          if |fc| < tol then (.ok c, st2)
          else if fa * fc < 0 then regulaFalsiLoop f tol fuel (i + 1) a c fa fc st2
          else regulaFalsiLoop f tol fuel (i + 1) c b fc fb st2

/-- Method `RegulaFalsi.start` (RegulaFalsi.py lines 43-77): sign-change
precondition then the iteration loop. -/
def regulaFalsiStart (f : ℚ → ℚ) (lower upper tol : ℚ) (maxIter : Nat)
    (st : LogState) : Except PyErr ℚ × LogState :=
  let fa := f lower
  let fb := f upper
  if fa * fb ≥ 0 then (.error .valueError, st)
  else regulaFalsiLoop f tol maxIter 1 lower upper fa fb st

/-- A LogState with logging and verbosity disabled, as produced by the
default construction of the src/src Numerix base. -/
def emptyLogState : LogState :=
  { is_verbose := false, is_logging := false, log_columns := [], logs := [] }

/-- A one-equation linear system f(x) = x used as a concrete solver
input. -/
def exEqns : List (List ℚ → ℚ) := [fun v => v.headD 0]

/-- Its 1×1 Jacobian, the constant 1. -/
def exDerivs : List (List (List ℚ → ℚ)) := [[fun _ => 1]]

/-- A two-equation system whose Jacobian is everywhere singular. -/
def singEqns : List (List ℚ → ℚ) := [fun _ => 1, fun _ => 2]

/-- Its constant Jacobian [[1, 2], [2, 4]], of determinant zero. -/
def singDerivs : List (List (List ℚ → ℚ)) :=
  [[fun _ => 1, fun _ => 2], [fun _ => 2, fun _ => 4]]

/-- A LogState with logging enabled and no schema fixed yet. -/
def enabledLogState : LogState :=
  { is_verbose := false, is_logging := true, log_columns := [], logs := [] }

/-- A concrete one-field record with key "a". -/
def recA : LogRec := [("a", PyVal.int 1)]

/-- A concrete one-field record with key "b". -/
def recB : LogRec := [("b", PyVal.int 2)]

/-- A Python-level function object of arity 2 (callable, has __code__). -/
def lamTwoArg : PyFunc := { callable := true, hasCode := true, coArgcount := 2 }

/-
Batteries marks the core rational operations irreducible so that simp
does not unfold them; concrete evaluation of the embedded solvers in the
witnesses below needs them reducible again.
-/
attribute [local semireducible] Rat.add Rat.mul Rat.sub Rat.inv

/-- If f moves some member of a list, mapping f over the list changes
it. -/
theorem map_ne_self_of_mem {α : Type} (f : α → α) :
    ∀ (l : List α) (x : α), x ∈ l → f x ≠ x → l.map f ≠ l
  | [], _, hx, _ => nomatch hx
  | a :: t, x, hx, hfx => by
      intro h
      simp only [List.map_cons, List.cons.injEq] at h
      cases hx with
      | head => exact hfx h.1
      | tail _ hmem => exact map_ne_self_of_mem f t x hmem hfx h.2

/-- Every singular-Jacobian error produced by the Newton loop carries a
1-based iteration number strictly greater than the number of iterations
already performed when the loop was entered. -/
theorem newtonLoop_singular_index (eqns : List (List ℚ → ℚ))
    (derivs : List (List (List ℚ → ℚ))) (tol : ℚ) :
    ∀ (fuel i : Nat) (prev : List ℚ) (log : List LogRec) (k : Nat),
      (newtonLoop eqns derivs tol fuel i prev log).1.1 = .error (.singular k) →
        i < k := by
  intro fuel
  induction fuel with
  | zero =>
    intro i prev log k h
    exact absurd h (by simp [newtonLoop])
  | succ n ih =>
    intro i prev log k h
    simp only [newtonLoop] at h
    split at h
    · simp only [Except.error.injEq, NRErr.singular.injEq] at h
      omega
    · split at h
      · simp at h
      · dsimp only at h
        have := ih (i + 1) _ _ k h
        omega

/-- Claim C10: a rejected `add_logs` call leaves the log state unchanged —
whenever the method raises (logging disabled, or record keys different
from the fixed schema), the exception fires before any row is written, so
the stored rows and the fixed column schema are exactly as they were. -/
theorem c10_rejected_append_preserves_state (st : LogState) (log : LogRec)
    (e : PyErr) (h : (add_logs st log).1 = some e) :
    (add_logs st log).2 = st := by
  by_cases h1 : st.is_logging = false
  · simp [add_logs, h1]
  · by_cases h2 : st.log_columns = []
    · exact absurd h (by simp [add_logs, h1, h2])
    · by_cases h3 : log.map Prod.fst = st.log_columns
      · exact absurd h (by simp [add_logs, h1, h2, h3])
      · simp [add_logs, h1, h2, h3]

/-- Witness for C10 at a concrete rejected append: logging is disabled,
the call raises, and the state is returned untouched. -/
theorem c10_witness : (add_logs emptyLogState recA).2 = emptyLogState :=
  c10_rejected_append_preserves_state emptyLogState recA .runtimeError (by decide)

/-- Claim C2, counterexample: in the Newton-Raphson family the base-class
`append_process_log` performs no schema check at all — appending a second
record whose key set differs from the first record's is not rejected; the
row is simply concatenated, so the log afterwards holds both rows. -/
theorem c2_counterexample :
    (append_process_log (append_process_log [] recA).1 recB).1
        = [[("a", PyVal.float 1)], [("b", PyVal.float 2)]] ∧
      recB.map Prod.fst ≠ recA.map Prod.fst := by
  constructor
  · rfl
  · decide

/-- Claim C2 as amended: the first-record-fixes-schema invariant and the
mismatch rejection hold for the `src/src/numerix` base class `add_logs`
(for a non-empty first record), but not for the Newton-Raphson family,
whose `append_process_log` never rejects (see the counterexample). -/
theorem c2_schema_enforced_in_src_base (st : LogState) (r1 r2 : LogRec)
    (h1 : st.is_logging = true) (h2 : st.log_columns = [])
    (h3 : r1 ≠ []) (h4 : r2.map Prod.fst ≠ r1.map Prod.fst) :
    (add_logs st r1).1 = none ∧
    (add_logs st r1).2.log_columns = r1.map Prod.fst ∧
    add_logs (add_logs st r1).2 r2 = (some .valueError, (add_logs st r1).2) := by
  have hcols : r1.map Prod.fst ≠ [] := by simpa using h3
  refine ⟨?_, ?_, ?_⟩
  · simp [add_logs, h1, h2]
  · simp [add_logs, h1, h2]
  · simp [add_logs, h1, h2, hcols, h4]

/-- Witness for C2's amended statement on a concrete state: the first
append fixes the schema to ["a"], and a second append keyed ["b"] is
rejected with the ValueError, state unchanged. -/
theorem c2_witness :
    (add_logs enabledLogState recA).1 = none ∧
    (add_logs enabledLogState recA).2.log_columns = recA.map Prod.fst ∧
    add_logs (add_logs enabledLogState recA).2 recB
      = (some .valueError, (add_logs enabledLogState recA).2) :=
  c2_schema_enforced_in_src_base enabledLogState recA recB rfl rfl
    (by decide) (by decide)

/-- Claim C8: `append_process_log` mutates the caller's record in place —
every int or float value is replaced by its dtype conversion before the
row is appended, so a record holding an int value is observed changed by
the caller after the call. -/
theorem c8_append_mutates_record (plog : List LogRec) (r : LogRec)
    (k : String) (n : Int) (hmem : (k, PyVal.int n) ∈ r) :
    (append_process_log plog r).2 = r.map convEntry ∧
    (append_process_log plog r).1 = plog ++ [r.map convEntry] ∧
    (append_process_log plog r).2 ≠ r := by
  refine ⟨rfl, rfl, ?_⟩
  exact map_ne_self_of_mem convEntry r (k, PyVal.int n) hmem
    (by simp [convEntry, convVal])

/-- Witness for C8 on a concrete Newton-style record: the int-valued
"Iteration" field is converted, so the caller's dict differs after the
call. -/
theorem c8_witness :
    (append_process_log [] [("Iteration", PyVal.int 1), ("Args", PyVal.arr [1])]).2
        = [("Iteration", PyVal.int 1), ("Args", PyVal.arr [1])].map convEntry ∧
    (append_process_log [] [("Iteration", PyVal.int 1), ("Args", PyVal.arr [1])]).1
        = [] ++ [[("Iteration", PyVal.int 1), ("Args", PyVal.arr [1])].map convEntry] ∧
    (append_process_log [] [("Iteration", PyVal.int 1), ("Args", PyVal.arr [1])]).2
        ≠ [("Iteration", PyVal.int 1), ("Args", PyVal.arr [1])] :=
  c8_append_mutates_record [] [("Iteration", PyVal.int 1), ("Args", PyVal.arr [1])]
    "Iteration" 1 (by decide)

/-- Claim C9: constructing Bisection or Regula Falsi with a callable that
has no `__code__` attribute raises AttributeError from the arity check
(`function.__code__.co_argcount`) instead of the specified arity
ValueError. -/
theorem c9_arity_check_not_total (f : PyFunc) (lo hi : ℚ)
    (hc : f.callable = true) (hnc : f.hasCode = false) :
    bisectionInitCheck f lo hi = .error .attributeError ∧
    regulaFalsiInitCheck f lo hi = .error .attributeError := by
  constructor
  · simp [bisectionInitCheck, bisection_set_function, hnc]
  · simp [regulaFalsiInitCheck, regulaFalsi_set_function, hc, hnc]

/-- Witness for C9: a builtin-like callable object (callable, no
`__code__`) makes both constructors raise AttributeError. -/
theorem c9_witness :
    bisectionInitCheck { callable := true, hasCode := false, coArgcount := 0 } 0 1
        = .error .attributeError ∧
    regulaFalsiInitCheck { callable := true, hasCode := false, coArgcount := 0 } 0 1
        = .error .attributeError :=
  c9_arity_check_not_total { callable := true, hasCode := false, coArgcount := 0 }
    0 1 rfl rfl

/-- Claim C3, counterexample: a 1×3 grid of callables supplied as the
Jacobian of a 2-equation system is accepted by the construction chain
(no invalid-Jacobian error) — `set_derivatives` never compares the grid
shape with the number of equations. -/
theorem c3_counterexample :
    newtonRaphInitCheck [lamTwoArg, lamTwoArg] [[lamTwoArg, lamTwoArg, lamTwoArg]] 1
        = .ok (1, 3) ∧
      [[lamTwoArg, lamTwoArg, lamTwoArg]].length ≠ [lamTwoArg, lamTwoArg].length :=
  ⟨rfl, by decide⟩

/-- Claim C3 as amended: construction rejects the derivatives grid only
when some cell is non-callable (TypeError) — any non-empty all-callable
grid is accepted regardless of its shape, and the recorded Jacobian shape
is (row count, length of the first row). -/
theorem c3_shape_not_validated (eqns : List PyFunc) (r : List PyFunc)
    (rs : List (List PyFunc))
    (he : (eqns.all fun e => e.callable) = true)
    (hd : ((r :: rs).all fun row => row.all fun d => d.callable) = true) :
    newtonRaphInitCheck eqns (r :: rs) 1 = .ok ((r :: rs).length, r.length) := by
  simp [newtonRaphInitCheck, set_derivatives, he, hd]

/-- Witness for C3's amended statement: a 2×1 all-callable grid for a
1-equation system is accepted with recorded shape (2, 1). -/
theorem c3_witness :
    newtonRaphInitCheck [lamTwoArg] [[lamTwoArg], [lamTwoArg]] 1
        = .ok ([[lamTwoArg], [lamTwoArg]].length, [lamTwoArg].length) :=
  c3_shape_not_validated [lamTwoArg] [lamTwoArg] [[lamTwoArg]] (by decide) (by decide)

/-- Claim C4: when the iteration budget is exhausted without the
convergence test having returned, the bisection and regula-falsi loops
raise the RuntimeError ("did not converge") while the Newton-Raphson loop
raises nothing and returns its last computed estimate together with the
accumulated process log. -/
theorem c4_budget_exhaustion_asymmetry (f : ℚ → ℚ) (tol : ℚ) (i : Nat)
    (a b fa fb : ℚ) (st : LogState) (eqns : List (List ℚ → ℚ))
    (derivs : List (List (List ℚ → ℚ))) (prev : List ℚ) (log : List LogRec) :
    bisectionLoop f tol 0 i a b fa fb st = (.error .runtimeError, st) ∧
    regulaFalsiLoop f tol 0 i a b fa fb st = (.error .runtimeError, st) ∧
    newtonLoop eqns derivs tol 0 i prev log = ((.ok prev, log), 0) :=
  ⟨rfl, rfl, rfl⟩

/-- Claim C6: one pre-convergence bisection bracket update exactly halves
the bracket width: with midpoint c = (a+b)/2, the updated bracket — [a,c]
or [c,b] — has width |b−a|/2 in exact arithmetic. -/
theorem c6_bracket_width_halves (fa fb fc a b : ℚ) :
    |(bisectUpdate fa fb fc a b ((a + b) / 2)).1.2 -
        (bisectUpdate fa fb fc a b ((a + b) / 2)).1.1| = |b - a| / 2 := by
  unfold bisectUpdate
  split
  · show |(a + b) / 2 - a| = |b - a| / 2
    rw [show (a + b) / 2 - a = (b - a) / 2 by ring, abs_div]
    norm_num
  · show |b - (a + b) / 2| = |b - a| / 2
    rw [show b - (a + b) / 2 = (b - a) / 2 by ring, abs_div]
    norm_num

/-- Claim C5: on a valid sign-changing bracket, `start` enters the
iteration loop, and each iteration (with logging disabled) computes the
midpoint c = (a+b)/2, returns c as soon as |f(c)| < tol or |b−a|/2 < tol,
and otherwise continues on the bracket [a,c] when f(a)·f(c) < 0 and on
[c,b] otherwise, carrying the endpoint values along. -/
theorem c5_bisection_iteration (f : ℚ → ℚ) (tol : ℚ) (maxIter fuel i : Nat)
    (a b fb : ℚ) (st : LogState) (hlog : st.is_logging = false) :
    (f a * f b < 0 →
      bisectionStart f a b tol maxIter st
        = bisectionLoop f tol maxIter 1 a b (f a) (f b) st) ∧
    (|f ((a + b) / 2)| < tol ∨ |b - a| / 2 < tol →
      bisectionLoop f tol (fuel + 1) i a b (f a) fb st
        = (.ok ((a + b) / 2), st)) ∧
    (¬(|f ((a + b) / 2)| < tol ∨ |b - a| / 2 < tol) →
      (f a * f ((a + b) / 2) < 0 →
        bisectionLoop f tol (fuel + 1) i a b (f a) fb st
          = bisectionLoop f tol fuel (i + 1) a ((a + b) / 2)
              (f a) (f ((a + b) / 2)) st) ∧
      (¬(f a * f ((a + b) / 2) < 0) →
        bisectionLoop f tol (fuel + 1) i a b (f a) fb st
          = bisectionLoop f tol fuel (i + 1) ((a + b) / 2) b
              (f ((a + b) / 2)) fb st)) := by
  refine ⟨?_, ?_, ?_⟩
  · intro hsign
    have hge : ¬(f a * f b ≥ 0) := not_le.mpr hsign
    simp [bisectionStart, hge]
  · intro hconv
    simp [bisectionLoop, hlog, hconv]
  · intro hnconv
    constructor
    · intro hlt
      simp [bisectionLoop, hlog, hnconv, bisectUpdate, hlt]
    · intro hnlt
      simp [bisectionLoop, hlog, hnconv, bisectUpdate, hnlt]

/-- Witness for C5 at f(x) = x² − 2 on [0, 2] with tol = 1e-6: the first
iteration does not converge, f(0)·f(1) > 0, so the loop continues on the
bracket [(0+2)/2, 2]. -/
theorem c5_witness :
    bisectionLoop (fun x : ℚ => x * x - 2) (1 / 1000000) 5 1 0 2
        ((fun x : ℚ => x * x - 2) 0) ((fun x : ℚ => x * x - 2) 2) emptyLogState
      = bisectionLoop (fun x : ℚ => x * x - 2) (1 / 1000000) 4 2 ((0 + 2) / 2) 2
        ((fun x : ℚ => x * x - 2) ((0 + 2) / 2)) ((fun x : ℚ => x * x - 2) 2)
        emptyLogState :=
  ((c5_bisection_iteration (fun x : ℚ => x * x - 2) (1 / 1000000) 5 4 1 0 2
      ((fun x : ℚ => x * x - 2) 2) emptyLogState rfl).2.2
    (by decide)).2 (by decide)

/-- Claim C1, counterexample: a concrete `NewtonRaph.solve` run (the
1-equation system f(x) = x from guess [1], converging in two iterations)
performs five reads of the global `dtype()` configuration getter — the
configuration read interface is consulted during `solve`, not exactly
once at construction. -/
theorem c1_counterexample :
    (newtonSolve exEqns exDerivs [1] 100 (1 / 100000000)).2 = 5 ∧
    (newtonSolve exEqns exDerivs [1] 100 (1 / 100000000)).2 ≠ 0 := by
  constructor
  · decide
  · decide

/-- Claim C1 as amended: every `NewtonRaph.solve` call re-reads the
global configuration — at least one `dtype()` read casting the initial
guess, and two further reads in every executed iteration — so the
configuration read interface is not consulted exactly once at
construction, and a post-construction precision change is observed by
subsequent solve calls. -/
theorem c1_solve_rereads_config (eqns : List (List ℚ → ℚ))
    (derivs : List (List (List ℚ → ℚ))) (tol : ℚ) :
    (∀ (guess : List ℚ) (maxIter : Nat),
        1 ≤ (newtonSolve eqns derivs guess maxIter tol).2) ∧
    (∀ (fuel i : Nat) (prev : List ℚ) (log : List LogRec),
        2 ≤ (newtonLoop eqns derivs tol (fuel + 1) i prev log).2) := by
  constructor
  · intro guess maxIter
    show 1 ≤ (newtonLoop eqns derivs tol maxIter 0 guess []).2 + 1
    omega
  · intro fuel i prev log
    simp only [newtonLoop]
    split
    · simp
    · split
      · simp
      · simp

/-- Claim C7: the Newton loop raises the singular-Jacobian error at the
iteration it is entered if and only if the determinant of the Jacobian at
the current iterate is exactly zero (no near-singularity tolerance); the
raise happens before anything is logged, so a Jacobian singular at the
first iterate makes `solve` fail with the error carrying iteration 1 and
a process log with zero entries. -/
theorem c7_singular_exact_zero (eqns : List (List ℚ → ℚ))
    (derivs : List (List (List ℚ → ℚ))) (tol : ℚ) :
    (∀ (fuel i : Nat) (prev : List ℚ) (log : List LogRec),
        detQ (evaluate_jacobian derivs prev) = 0 →
          newtonLoop eqns derivs tol (fuel + 1) i prev log
            = ((.error (.singular (i + 1)), log), 2)) ∧
    (∀ (fuel i : Nat) (prev : List ℚ) (log : List LogRec),
        (newtonLoop eqns derivs tol (fuel + 1) i prev log).1.1
            = .error (.singular (i + 1)) →
          detQ (evaluate_jacobian derivs prev) = 0) ∧
    (∀ (guess : List ℚ) (maxIter : Nat), 1 ≤ maxIter →
        detQ (evaluate_jacobian derivs guess) = 0 →
          newtonSolve eqns derivs guess maxIter tol
            = ((.error (.singular 1), []), 3)) := by
  have hstep : ∀ (fuel i : Nat) (prev : List ℚ) (log : List LogRec),
      detQ (evaluate_jacobian derivs prev) = 0 →
        newtonLoop eqns derivs tol (fuel + 1) i prev log
          = ((.error (.singular (i + 1)), log), 2) := by
    intro fuel i prev log hd
    simp only [newtonLoop]
    rw [if_pos hd]
  refine ⟨hstep, ?_, ?_⟩
  · intro fuel i prev log h
    by_contra hd
    simp only [newtonLoop] at h
    rw [if_neg hd] at h
    split at h
    · simp at h
    · dsimp only at h
      have := newtonLoop_singular_index eqns derivs tol fuel (i + 1) _ _ (i + 1) h
      omega
  · intro guess maxIter hmax hd
    obtain ⟨m, rfl⟩ : ∃ m, maxIter = m + 1 := ⟨maxIter - 1, by omega⟩
    show (let r := newtonLoop eqns derivs tol (m + 1) 0 guess []; (r.1, r.2 + 1))
        = ((.error (.singular 1), []), 3)
    rw [hstep m 0 guess [] hd]

/-- Witness for C7 at the concrete constant-singular system: the loop
fails at iteration 1 with an empty log, both at the loop level and
through `solve`. -/
theorem c7_witness :
    newtonLoop singEqns singDerivs (1 / 100) 1 0 [0, 0] []
        = ((.error (.singular 1), []), 2) ∧
    newtonSolve singEqns singDerivs [0, 0] 5 (1 / 100)
        = ((.error (.singular 1), []), 3) :=
  ⟨(c7_singular_exact_zero singEqns singDerivs (1 / 100)).1 0 0 [0, 0] []
      (by decide),
   (c7_singular_exact_zero singEqns singDerivs (1 / 100)).2.2 [0, 0] 5
      (by decide) (by decide)⟩
